import Mathlib

/-!
Verification development for the fia-doc-api repository.

The repository scrapes the FIA document portal with a headless browser.
Its core logic lives in `src/utils/playwright_utils.py`
(`select_option_by_type`, `get_docs`, `convert_fia_date_to_iso`) and in the
orchestration route `get_fia_documents` of `src/app.py`.

This file gives a shallow embedding of that logic:

* Python strings are Lean `String`s; the Python string primitives the code
  uses (`in`, `replace`, `strip`, `split(' ')`, `startswith`) are modelled
  by executable functions on the underlying character lists
  (`pycontains`, `pyreplace`, `pystrip`, `pySplitSpace`, `pyStartsWith`).
* `datetime.strptime(s, "%d.%m.%y %H:%M")` is modelled by `strptime_dmy_hm`,
  following the regex CPython `_strptime` compiles for this format,
  `(?P<d>3[0-1]|[1-2]\d|0[1-9]|[1-9]| [1-9])\.(?P<m>1[0-2]|0[1-9]|[1-9])\.`
  `(?P<y>\d\d)\s+(?P<H>2[0-3]|[0-1]\d|\d):(?P<M>[0-5]\d|\d)`, anchored at
  the start and required to consume the whole input ("unconverted data
  remains" otherwise): each alternation is modelled in order, `\d` is the
  set of Unicode decimal digits, `\s` the set of Unicode whitespace
  characters, the two-digit year is pivoted (00-68 -> 2000+yy, 69-99 ->
  1900+yy), and the resulting field values are validated exactly as the
  `datetime` constructor validates them.  A parse failure (Python
  `ValueError`) is `none`.
* The Playwright page handle is modelled by `Site`: an abstract page-state
  type with observation functions for the DOM fragments the code reads and
  a transition function for the state reached after a successful dropdown
  selection.  A raised Playwright exception is `Except.error ()`.
  Note that `ElementHandle.select_option(label=...)` raises a
  `TimeoutError` when no option of the select matches the requested label;
  the embedding reflects this.
-/

/-! ## Python string primitives -/

/-- The Unicode whitespace characters recognised by Python: exactly the
characters for which `str.isspace()` holds, which is also the set matched
by the regex class `\s` used for a whitespace in a `strptime` format
(U+0009-U+000D, U+001C-U+001F, space, U+0085, U+00A0, U+1680,
U+2000-U+200A, U+2028, U+2029, U+202F, U+205F, U+3000). -/
def isPySpace (c : Char) : Bool :=
  (9 ≤ c.toNat && c.toNat ≤ 13) || (28 ≤ c.toNat && c.toNat ≤ 31) ||
  c.toNat == 32 || c.toNat == 0x85 || c.toNat == 0xa0 || c.toNat == 0x1680 ||
  (0x2000 ≤ c.toNat && c.toNat ≤ 0x200a) || c.toNat == 0x2028 ||
  c.toNat == 0x2029 || c.toNat == 0x202f || c.toNat == 0x205f ||
  c.toNat == 0x3000

/-- Strip leading and trailing whitespace from a character list
(model of Python `str.strip()`). -/
def stripList (l : List Char) : List Char :=
  ((l.dropWhile isPySpace).reverse.dropWhile isPySpace).reverse

/-- Model of Python `str.strip()`. -/
def pystrip (s : String) : String :=
  ⟨stripList s.data⟩

/-- If `pat` is a prefix of `l`, return the rest of `l` after `pat`. -/
def dropPre : List Char → List Char → Option (List Char)
  | [], l => some l
  | _ :: _, [] => none
  | p :: ps, c :: cs => if p == c then dropPre ps cs else none

/-- Model of the Python substring test `pat in s` on character lists. -/
def containsList (pat : List Char) : List Char → Bool
  | [] => (dropPre pat []).isSome
  | c :: cs => (dropPre pat (c :: cs)).isSome || containsList pat cs

/-- Model of the Python substring test `pat in s`. -/
def pycontains (s pat : String) : Bool :=
  containsList pat.data s.data

/-- One step of Python `str.replace` driven by a fuel counter; the fuel is
instantiated with the length of the scanned list, which suffices for any
non-empty pattern (the only patterns the code uses). -/
def replaceAux (pat rep : List Char) : Nat → List Char → List Char
  | 0, l => l
  | _ + 1, [] => []
  | fuel + 1, a :: as =>
    match dropPre pat (a :: as) with
    | some rest => rep ++ replaceAux pat rep fuel rest
    | none => a :: replaceAux pat rep fuel as

/-- Model of Python `s.replace(pat, rep)` for a non-empty `pat`
(left-to-right, non-overlapping replacement of every occurrence). -/
def pyreplace (s pat rep : String) : String :=
  ⟨replaceAux pat.data rep.data s.data.length s.data⟩

/-- Model of Python `s.startswith(pre)`. -/
def pyStartsWith (s pre : String) : Bool :=
  (dropPre pre.data s.data).isSome

/-- Split a character list on every occurrence of `sep`, keeping empty
segments (model of Python `str.split(sep)` with an explicit separator). -/
def splitOnChar (sep : Char) : List Char → List (List Char)
  | [] => [[]]
  | c :: cs =>
    if c == sep then [] :: splitOnChar sep cs
    else
      match splitOnChar sep cs with
      | r :: rs => (c :: r) :: rs
      | [] => [[c]]

/-- Model of Python `s.split(' ')` (single-space separator, empty segments
kept). -/
def pySplitSpace (s : String) : List String :=
  (splitOnChar ' ' s.data).map (fun l => ⟨l⟩)

/-! ## The date normalizer (`convert_fia_date_to_iso`) -/

/-- The first code points of the 66 aligned runs of ten consecutive
Unicode decimal digits: a character matches the regex class `\d` (in a
`str` pattern) exactly when it lies in one of these runs, and its numeric
value under `int()` is its offset in the run. -/
def digitRunBases : List Nat :=
  [0x30, 0x660, 0x6f0, 0x7c0, 0x966, 0x9e6, 0xa66, 0xae6, 0xb66, 0xbe6,
   0xc66, 0xce6, 0xd66, 0xde6, 0xe50, 0xed0, 0xf20, 0x1040, 0x1090, 0x17e0,
   0x1810, 0x1946, 0x19d0, 0x1a80, 0x1a90, 0x1b50, 0x1bb0, 0x1c40, 0x1c50,
   0xa620, 0xa8d0, 0xa900, 0xa9d0, 0xa9f0, 0xaa50, 0xabf0, 0xff10, 0x104a0,
   0x10d30, 0x11066, 0x110f0, 0x11136, 0x111d0, 0x112f0, 0x11450, 0x114d0,
   0x11650, 0x116c0, 0x11730, 0x118e0, 0x11950, 0x11c50, 0x11d50, 0x11da0,
   0x16a60, 0x16ac0, 0x16b50, 0x1d7ce, 0x1d7d8, 0x1d7e2, 0x1d7ec, 0x1d7f6,
   0x1e140, 0x1e2f0, 0x1e950, 0x1fbf0]

/-- Numeric value of a Unicode decimal digit (the regex class `\d`),
`none` on any other character. -/
def udigit (c : Char) : Option Nat :=
  (digitRunBases.find? (fun b => b ≤ c.toNat && c.toNat ≤ b + 9)).map
    (fun b => c.toNat - b)

/-- `c` is an ASCII digit in `[1-9]` (the literal character class of the
`strptime` regex). -/
def asc19 (c : Char) : Bool :=
  49 ≤ c.toNat && c.toNat ≤ 57

/-- Numeric value of an ASCII digit character. -/
def ascVal (c : Char) : Nat :=
  c.toNat - 48

/-- The `%d` directive: the regex alternation
`3[0-1]|[1-2]\d|0[1-9]|[1-9]| [1-9]`, tried in order.  (Regex
backtracking into a shorter alternative never rescues a failed parse
here, because every shorter alternative requires the following literal
`.` where a longer one consumed a digit or `0`/`1`.) -/
def dayTok : List Char → Option (Nat × List Char)
  | [] => none
  | [c1] => if asc19 c1 then some (ascVal c1, ([] : List Char)) else none
  | c1 :: c2 :: rest =>
    if c1 == '3' && (c2 == '0' || c2 == '1') then some (30 + ascVal c2, rest)
    else if c1 == '1' || c1 == '2' then
      match udigit c2 with
      | some d2 => some (ascVal c1 * 10 + d2, rest)
      | none => some (ascVal c1, c2 :: rest)
    else if c1 == '0' && asc19 c2 then some (ascVal c2, rest)
    else if asc19 c1 then some (ascVal c1, c2 :: rest)
    else if c1 == ' ' && asc19 c2 then some (ascVal c2, rest)
    else none

/-- The `%m` directive: the regex alternation `1[0-2]|0[1-9]|[1-9]`,
tried in order. -/
def monthTok : List Char → Option (Nat × List Char)
  | [] => none
  | [c1] => if asc19 c1 then some (ascVal c1, ([] : List Char)) else none
  | c1 :: c2 :: rest =>
    if c1 == '1' && (c2 == '0' || c2 == '1' || c2 == '2') then
      some (10 + ascVal c2, rest)
    else if c1 == '0' && asc19 c2 then some (ascVal c2, rest)
    else if asc19 c1 then some (ascVal c1, c2 :: rest)
    else none

/-- The `%y` directive: the regex `\d\d`, exactly two decimal digits. -/
def yearTok : List Char → Option (Nat × List Char)
  | c1 :: c2 :: rest =>
    match udigit c1, udigit c2 with
    | some d1, some d2 => some (d1 * 10 + d2, rest)
    | _, _ => none
  | _ => none

/-- The `%H` directive: the regex alternation `2[0-3]|[0-1]\d|\d`,
tried in order. -/
def hourTok : List Char → Option (Nat × List Char)
  | [] => none
  | [c1] => (udigit c1).map (fun d => (d, ([] : List Char)))
  | c1 :: c2 :: rest =>
    if c1 == '2' && (c2 == '0' || c2 == '1' || c2 == '2' || c2 == '3') then
      some (20 + ascVal c2, rest)
    else if c1 == '0' || c1 == '1' then
      match udigit c2 with
      | some d2 => some (ascVal c1 * 10 + d2, rest)
      | none => some (ascVal c1, c2 :: rest)
    else
      match udigit c1 with
      | some d1 => some (d1, c2 :: rest)
      | none => none

/-- The `%M` directive: the regex alternation `[0-5]\d|\d`, tried in
order. -/
def minuteTok : List Char → Option (Nat × List Char)
  | [] => none
  | [c1] => (udigit c1).map (fun d => (d, ([] : List Char)))
  | c1 :: c2 :: rest =>
    if 48 ≤ c1.toNat && c1.toNat ≤ 53 then
      match udigit c2 with
      | some d2 => some (ascVal c1 * 10 + d2, rest)
      | none => some (ascVal c1, c2 :: rest)
    else
      match udigit c1 with
      | some d1 => some (d1, c2 :: rest)
      | none => none

/-- Consume one literal character. -/
def lit (c : Char) : List Char → Option (List Char)
  | [] => none
  | x :: xs => if x == c then some xs else none

/-- Consume one or more whitespace characters (a whitespace in a
`strptime` format string matches `\s+`). -/
def ws1 : List Char → Option (List Char)
  | [] => none
  | x :: xs => if isPySpace x then some (xs.dropWhile isPySpace) else none

/-- Number of days of a month in the proleptic Gregorian calendar, as
validated by the Python `datetime` constructor. -/
def daysInMonth (y m : Nat) : Nat :=
  if m = 2 then
    if y % 4 = 0 ∧ (y % 100 ≠ 0 ∨ y % 400 = 0) then 29 else 28
  else if m = 4 ∨ m = 6 ∨ m = 9 ∨ m = 11 then 30
  else 31

/-- The CPython `_strptime` pivot for the `%y` directive. -/
def pivotY (yy : Nat) : Nat :=
  if yy ≤ 68 then yy + 2000 else yy + 1900

/-- The result of a successful `datetime.strptime` call (with seconds and
microseconds zero, as produced by the format the code uses). -/
structure PyDateTime where
  year : Nat
  month : Nat
  day : Nat
  hour : Nat
  minute : Nat
deriving DecidableEq, Repr

/-- Model of `datetime.strptime(s, "%d.%m.%y %H:%M")`; `none` models the
raised `ValueError`. -/
def strptime_dmy_hm (s : String) : Option PyDateTime :=
  (dayTok s.data).bind fun dr =>
  (lit '.' dr.2).bind fun r2 =>
  (monthTok r2).bind fun mr =>
  (lit '.' mr.2).bind fun r4 =>
  (yearTok r4).bind fun yr =>
  (ws1 yr.2).bind fun r6 =>
  (hourTok r6).bind fun hr =>
  (lit ':' hr.2).bind fun r8 =>
  (minuteTok r8).bind fun nr =>
  if nr.2 = [] then
    if 1 ≤ mr.1 ∧ mr.1 ≤ 12 ∧ 1 ≤ dr.1 ∧ dr.1 ≤ daysInMonth (pivotY yr.1) mr.1 ∧
        hr.1 ≤ 23 ∧ nr.1 ≤ 59 then
      some ⟨pivotY yr.1, mr.1, dr.1, hr.1, nr.1⟩
    else none
  else none

/-- Zero-pad a number to two digits (the fixed-width fields of
`datetime.isoformat()`). -/
def pad2 (n : Nat) : String :=
  if n < 10 then "0" ++ toString n else toString n

/-- Zero-pad a number to four digits (the year field of
`datetime.isoformat()`). -/
def pad4 (n : Nat) : String :=
  if n < 10 then "000" ++ toString n
  else if n < 100 then "00" ++ toString n
  else if n < 1000 then "0" ++ toString n
  else toString n

/-- Model of `datetime.isoformat()` for a datetime with zero seconds and
microseconds. -/
def pyIsoformat (dt : PyDateTime) : String :=
  pad4 dt.year ++ "-" ++ pad2 dt.month ++ "-" ++ pad2 dt.day ++ "T" ++
    pad2 dt.hour ++ ":" ++ pad2 dt.minute ++ ":00"

/-- The `date_part` computed inside `convert_fia_date_to_iso`:
`date_text.replace("Published on ", "").replace(" CET", "")`. -/
def fia_date_part (date_text : String) : String :=
  pyreplace (pyreplace date_text "Published on " "") " CET" ""

/-- Embedding of `convert_fia_date_to_iso` from
`src/utils/playwright_utils.py` (lines 130-151). -/
def convert_fia_date_to_iso (date_text : String) : String :=
  if date_text = "" ∨ pycontains date_text "Published on" = false then date_text
  else
    match strptime_dmy_hm (fia_date_part date_text) with
    | some dt => pyIsoformat dt
    | none => date_text

example : convert_fia_date_to_iso "Published on 27.07.25 19:58 CET" = "2025-07-27T19:58:00" := by rfl
example : convert_fia_date_to_iso "Published on 27.07.99 19:58 CET" = "1999-07-27T19:58:00" := by rfl
example : convert_fia_date_to_iso "hello" = "hello" := by rfl
example : convert_fia_date_to_iso "Published on 31.02.25 10:00 CET" = "Published on 31.02.25 10:00 CET" := by rfl
example : convert_fia_date_to_iso "Published on  5.07.25 10:00 CET" = "2025-07-05T10:00:00" := by rfl
example : convert_fia_date_to_iso "Published on 27.07.5 19:58 CET" = "Published on 27.07.5 19:58 CET" := by rfl
example : pystrip "  Doc 1  " = "Doc 1" := by rfl
example : pystrip "\u00a0" = "" := by rfl
example : pySplitSpace "SEASON 2025" = ["SEASON", "2025"] := by rfl
example : pySplitSpace "Season" = ["Season"] := by rfl

/-! ## DOM model

The fragments of the page the code reads, with element handles modelled by
`Option`-valued observations (a missing element is `none`). -/

/-- An `<option>` element of a dropdown: its `value` attribute and its
visible label (inner text). -/
structure SelOption where
  value : String
  label : String
deriving DecidableEq, Repr

/-- A `<select>` element: its options in document order. -/
structure SelectEl where
  options : List SelOption
deriving DecidableEq, Repr

/-- A `.select-field-wrapper` element: its `<select>` child, if any. -/
structure Wrapper where
  sel : Option SelectEl
deriving DecidableEq, Repr

/-- One `ul.document-row-wrapper li` item as read by `get_docs`:
`link = none` means the item has no `<a>`; `link = some none` means the
`<a>` exists but has no `href` attribute (Playwright `get_attribute`
returns `None`).  `titleText` / `publishedText` are the inner texts of the
`div.title` / `div.published` children, when present. -/
structure DocItem where
  link : Option (Option String)
  titleText : Option String
  publishedText : Option String
deriving DecidableEq, Repr

/-- The parts of the page state `get_docs` reads: the inner text of the
`.event-title` element (if present), and, for each `.form-type-select`
element, the inner text of its first `select option` descendant (if
present), and the document list items. -/
structure DocsPage where
  eventTitle : Option String
  formTypeSelectOptionTexts : List (Option String)
  documentItems : List DocItem
deriving DecidableEq, Repr

/-! ## Extraction records -/

/-- The metadata record `get_docs` emits first. -/
structure MetaRecord where
  season_year : String
  gp_name : String
deriving DecidableEq, Repr

/-- A document record emitted by `get_docs`.  The `url` field is `none`
when the anchor exists but has no `href` attribute (Python `None`). -/
structure DocRecord where
  title : String
  published : String
  date : String
  url : Option String
deriving DecidableEq, Repr

/-- An element of the heterogeneous list `get_docs` returns. -/
inductive Record where
  | meta (m : MetaRecord)
  | doc (d : DocRecord)
deriving DecidableEq, Repr

/-! ## The document extractor (`get_docs`) -/

/-- `href = link_element.get_attribute('href') if link_element else ""`
(line 72); the result is a Python string or `None`. -/
def pyHref (it : DocItem) : Option String :=
  match it.link with
  | some a => a
  | none => some ""

/-- Lines 74-78: `if href and href.startswith('/')` rewrite to an absolute
URL on the site's origin, otherwise pass `href` through (including `""`
and `None`). -/
def resolveUrl (href : Option String) : Option String :=
  match href with
  | some h =>
    if h ≠ "" ∧ pyStartsWith h "/" = true then some ("https://www.fia.com" ++ h)
    else some h
  | none => none

/-- `title = title_element.inner_text().strip() if title_element else ""`
(line 82). -/
def itemTitle (it : DocItem) : String :=
  match it.titleText with
  | some t => pystrip t
  | none => ""

/-- `published_raw = published_element.inner_text().strip() if
published_element else ""` (line 86). -/
def itemPublished (it : DocItem) : String :=
  match it.publishedText with
  | some t => pystrip t
  | none => ""

/-- The body of the `for item in document_items` loop of `get_docs`
(lines 69-98): the record appended for one item, or `none` when the item
is dropped because its title is empty. -/
def docRecordOfItem (it : DocItem) : Option DocRecord :=
  if itemTitle it ≠ "" then
    some { title := itemTitle it
           published := itemPublished it
           date := convert_fia_date_to_iso (itemPublished it)
           url := resolveUrl (pyHref it) }
  else none

example :
    docRecordOfItem
      { link := none, titleText := some "\u00a0", publishedText := none } = none := by
  rfl

/-- Embedding of `get_docs` from `src/utils/playwright_utils.py`
(lines 40-100).  The season-year read (line 57) chains
`query_selector_all(".form-type-select")[0]` (IndexError when the list is
empty), `.query_selector("select option").inner_text()` (AttributeError
when there is no option element) and `.split(' ')[1]` (IndexError when the
text has no second space-separated token); each of those raises out of
`get_docs`, which the embedding models as `Except.error ()`. -/
def get_docs (pg : DocsPage) : Except Unit (List Record) :=
  match pg.formTypeSelectOptionTexts.get? 0 with
  | none => Except.error ()
  | some none => Except.error ()
  | some (some txt) =>
    match (pySplitSpace txt).get? 1 with
    | none => Except.error ()
    | some season_year =>
      Except.ok
        (Record.meta
          { season_year := if season_year ≠ "" then season_year else "unknown"
            gp_name := pg.eventTitle.getD "unknown" } ::
         pg.documentItems.filterMap (fun it => (docRecordOfItem it).map Record.doc))

/-! ## The selector engine (`select_option_by_type`) and the page handle -/

/-- `first_option = select_element.query_selector('option[value="0"]')`,
`current_select_type = first_option.inner_text() if first_option else ""`
(lines 30-31): the logical identity of a dropdown. -/
def placeholderText (se : SelectEl) : String :=
  match se.options.find? (fun o => o.value == "0") with
  | some o => o.label
  | none => ""

/-- The wrapper loop of `select_option_by_type` (lines 25-38): walk the
`.select-field-wrapper` elements; on the first whose placeholder text
equals the field name, apply `select_option(label=option_text)` — which
succeeds iff some option carries that label and otherwise raises a
Playwright `TimeoutError` (`Except.error ()`); if no wrapper matches,
return `false`. -/
def findAndSelect (field label_text : String) : List Wrapper → Except Unit Bool
  | [] => Except.ok false
  | w :: rest =>
    match w.sel with
    | none => findAndSelect field label_text rest
    | some se =>
      if placeholderText se = field then
        if se.options.any (fun o => o.label == label_text) then Except.ok true
        else Except.error ()
      else findAndSelect field label_text rest

/-- The abstract Playwright page handle: a page-state type `σ` with the
observations the code performs and the state transition caused by a
successful dropdown selection (the site re-renders after each selection). -/
structure Site (σ : Type) where
  wrappers : σ → List Wrapper
  docs : σ → DocsPage
  step : σ → String → String → σ

/-- Embedding of `select_option_by_type` from
`src/utils/playwright_utils.py` (lines 9-38), with the page-state change
of a successful selection made explicit. -/
def select_option_by_type {σ : Type} (W : Site σ) (s : σ)
    (select_field_name option_text : String) : Except Unit (Bool × σ) :=
  match findAndSelect select_field_name option_text (W.wrappers s) with
  | Except.error e => Except.error e
  | Except.ok true => Except.ok (true, W.step s select_field_name option_text)
  | Except.ok false => Except.ok (false, s)

/-! ## The orchestration flow (`get_fia_documents`, `src/app.py` lines 38-119)

The flow is instrumented with the list of `(field, option)` selection
attempts it performs, mirroring the log lines of the source; `nowYear`
stands for `datetime.now().year`. -/

/-- Lines 72-90: the season phase.  `if season:` attempt the selection;
on a `False` result compute the fallback label
`f"SEASON {datetime.now().year - 1}"` and retry once; on fallback success
wait again for the filter UI (`page.wait_for_selector`, fatal when no
wrapper exists); on double failure proceed with the unchanged state. -/
def seasonPhase {σ : Type} (W : Site σ) (s0 : σ) (nowYear : Nat)
    (season : String) : List (String × String) × Except Unit σ :=
  if season = "" then ([], Except.ok s0)
  else
    match select_option_by_type W s0 "Season" season with
    | Except.error e => ([("Season", season)], Except.error e)
    | Except.ok (true, s1) => ([("Season", season)], Except.ok s1)
    | Except.ok (false, _) =>
      let fallback_season := "SEASON " ++ toString (nowYear - 1)
      match select_option_by_type W s0 "Season" fallback_season with
      | Except.error e =>
        ([("Season", season), ("Season", fallback_season)], Except.error e)
      | Except.ok (true, s1) =>
        if (W.wrappers s1).isEmpty then
          ([("Season", season), ("Season", fallback_season)], Except.error ())
        else ([("Season", season), ("Season", fallback_season)], Except.ok s1)
      | Except.ok (false, _) =>
        ([("Season", season), ("Season", fallback_season)], Except.ok s0)

/-- Lines 92-93: `if championship:` attempt the selection once; the
boolean result is ignored but a raised exception propagates. -/
def champPhase {σ : Type} (W : Site σ) (s : σ)
    (championship : String) : List (String × String) × Except Unit σ :=
  if championship = "" then ([], Except.ok s)
  else
    match select_option_by_type W s "Championship" championship with
    | Except.error e => ([("Championship", championship)], Except.error e)
    | Except.ok (_, s') => ([("Championship", championship)], Except.ok s')

/-- Lines 95-98: `if event:` attempt the selection once, otherwise skip
event selection entirely. -/
def eventPhase {σ : Type} (W : Site σ) (s : σ)
    (event : String) : List (String × String) × Except Unit σ :=
  if event = "" then ([], Except.ok s)
  else
    match select_option_by_type W s "Event" event with
    | Except.error e => ([("Event", event)], Except.error e)
    | Except.ok (_, s') => ([("Event", event)], Except.ok s')

/-- Embedding of the core of the `/fia-documents` route `get_fia_documents`
(`src/app.py` lines 56-105): wait for the filter UI (fatal when absent),
run the season phase with its one fallback, then championship, then
event, then extract.  The first component collects every selection
attempt `(field, option)` in order. -/
def get_fia_documents {σ : Type} (W : Site σ) (s0 : σ) (nowYear : Nat)
    (season championship event : String) :
    List (String × String) × Except Unit (List Record) :=
  if (W.wrappers s0).isEmpty then ([], Except.error ())
  else
    match seasonPhase W s0 nowYear season with
    | (atts, Except.error e) => (atts, Except.error e)
    | (atts, Except.ok s1) =>
      match champPhase W s1 championship with
      | (atts2, Except.error e) => (atts ++ atts2, Except.error e)
      | (atts2, Except.ok s2) =>
        match eventPhase W s2 event with
        | (atts3, Except.error e) => (atts ++ atts2 ++ atts3, Except.error e)
        | (atts3, Except.ok s3) => (atts ++ atts2 ++ atts3, get_docs (W.docs s3))

/-! ## The championship enumerator -/

/-- The dropdown whose placeholder reads "Championship", if any. -/
def championshipControl (ws : List Wrapper) : Option SelectEl :=
  ws.findSome? fun w =>
    match w.sel with
    | some se => if placeholderText se = "Championship" then some se else none
    | none => none

/-- The option labels of a dropdown, excluding the disabled placeholder
entry (the option with `value="0"`). -/
def optionLabelsExcludingPlaceholder (se : SelectEl) : List String :=
  (se.options.filter (fun o => !(o.value == "0"))).map (fun o => o.label)

/-- Modelled from the spec: `get_available_championships` is imported by
`src/app.py` (line 12) and called at line 222, but its definition is not
under `src/`.  Per spec section 4.4, championship enumeration first
applies the given season (when provided) via the Selector Engine, then
returns the currently selectable option labels of the championship
control, excluding the disabled placeholder entry. -/
def get_available_championships {σ : Type} (W : Site σ) (s : σ)
    (season : Option String) : Except Unit (List String) :=
  match season with
  | none =>
    Except.ok
      (match championshipControl (W.wrappers s) with
       | some se => optionLabelsExcludingPlaceholder se
       | none => [])
  | some sn =>
    match select_option_by_type W s "Season" sn with
    | Except.error e => Except.error e
    | Except.ok (_, s') =>
      Except.ok
        (match championshipControl (W.wrappers s') with
         | some se => optionLabelsExcludingPlaceholder se
         | none => [])

/-! ## Concrete fixtures (used by counterexamples and witnesses) -/

/-- A page whose first `.form-type-select` shows the placeholder text
"Season" (a single token) as its first option. -/
def pgPlaceholder : DocsPage :=
  { eventTitle := some "FORMULA 1 GP"
    formTypeSelectOptionTexts := [some "Season"]
    documentItems := [] }

/-- A document list item with a root-relative link, a padded title and a
well-formed published date. -/
def item1 : DocItem :=
  { link := some (some "/sites/default/doc1.pdf")
    titleText := some "  Doc 1  "
    publishedText := some "Published on 27.07.25 19:58 CET" }

/-- The record `get_docs` emits for `item1`. -/
def rec1 : DocRecord :=
  { title := "Doc 1"
    published := "Published on 27.07.25 19:58 CET"
    date := "2025-07-27T19:58:00"
    url := some "https://www.fia.com/sites/default/doc1.pdf" }

/-- A well-formed page state for the extractor. -/
def pg0 : DocsPage :=
  { eventTitle := some "FORMULA 1 BRITISH GRAND PRIX 2025"
    formTypeSelectOptionTexts := [some "SEASON 2025"]
    documentItems := [item1] }

/-- The extraction result on `pg0`. -/
def out0 : List Record :=
  [Record.meta { season_year := "2025", gp_name := "FORMULA 1 BRITISH GRAND PRIX 2025" },
   Record.doc rec1]

example : get_docs pg0 = Except.ok out0 := by rfl
example : get_docs pgPlaceholder = Except.error () := by rfl

/-- A site whose only dropdown is the Season control, holding nothing but
its disabled placeholder option. -/
def siteSeasonOnly : Site Unit :=
  { wrappers := fun _ => [{ sel := some { options := [{ value := "0", label := "Season" }] } }]
    docs := fun _ => pg0
    step := fun s _ _ => s }

/-- A site whose only dropdown is the Championship control (no Season
control matches, so season selection returns `false`). -/
def siteNoSeason : Site Unit :=
  { wrappers := fun _ =>
      [{ sel := some { options :=
          [{ value := "0", label := "Championship" },
           { value := "1", label := "FIA Formula One World Championship" }] } }]
    docs := fun _ => pg0
    step := fun s _ _ => s }

/-- A two-state site: state `0` shows the Season control, and a successful
selection moves to state `1`, which shows the season-dependent
Championship control. -/
def siteCascade : Site Nat :=
  { wrappers := fun n =>
      if n = 0 then
        [{ sel := some { options :=
            [{ value := "0", label := "Season" },
             { value := "1", label := "SEASON 2025" }] } }]
      else
        [{ sel := some { options :=
            [{ value := "0", label := "Championship" },
             { value := "1", label := "FIA Formula One World Championship" },
             { value := "2", label := "FIA Formula 2 Championship" }] } }]
    docs := fun _ => pg0
    step := fun _ _ _ => 1 }

example : select_option_by_type siteSeasonOnly () "Season" "SEASON 2099" = Except.error () := by rfl
example :
    (get_fia_documents siteNoSeason () 2026 "SEASON 2099" "" "").1 =
      [("Season", "SEASON 2099"), ("Season", "SEASON 2025")] := by rfl
example : select_option_by_type siteCascade 0 "Season" "SEASON 2025" = Except.ok (true, 1) := by rfl
example :
    get_available_championships siteCascade 0 (some "SEASON 2025") =
      Except.ok ["FIA Formula One World Championship", "FIA Formula 2 Championship"] := by rfl

/-! ## Helper lemmas -/

theorem dropWhile_head_false {α : Type} {p : α → Bool} :
    ∀ {l : List α} {a : α} {t : List α}, l.dropWhile p = a :: t → p a = false := by
  intro l
  induction l with
  | nil => intro a t h; cases h
  | cons b l ih =>
    intro a t h
    by_cases hb : p b = true
    · rw [List.dropWhile_cons_of_pos hb] at h
      exact ih h
    · rw [List.dropWhile_cons_of_neg hb] at h
      cases h
      simpa using hb

theorem stripList_all_space {l : List Char} (h : ∀ c ∈ l, isPySpace c = true) :
    stripList l = [] := by
  unfold stripList
  have h1 : l.dropWhile isPySpace = [] := List.dropWhile_eq_nil_iff.mpr h
  rw [h1]
  rfl

theorem stripList_nonnil_not_space {l : List Char} (h : stripList l ≠ []) :
    ∃ a ∈ stripList l, isPySpace a = false := by
  rcases hD : (l.dropWhile isPySpace).reverse.dropWhile isPySpace with _ | ⟨a, t⟩
  · exact absurd (by unfold stripList; rw [hD]; rfl) h
  · refine ⟨a, ?_, dropWhile_head_false hD⟩
    show a ∈ stripList l
    unfold stripList
    rw [hD]
    exact List.mem_reverse.mpr (List.mem_cons_self a t)

theorem stripList_nonnil_of_mem {l : List Char} {a : Char}
    (ha : a ∈ l) (hs : isPySpace a = false) : stripList l ≠ [] := by
  intro hnil
  unfold stripList at hnil
  have hD : (l.dropWhile isPySpace).reverse.dropWhile isPySpace = [] :=
    List.reverse_eq_nil_iff.mp hnil
  have hall : ∀ c ∈ (l.dropWhile isPySpace).reverse, isPySpace c = true :=
    List.dropWhile_eq_nil_iff.mp hD
  have hall2 : ∀ c ∈ l.dropWhile isPySpace, isPySpace c = true := by
    intro c hc
    exact hall c (List.mem_reverse.mpr hc)
  have : ∀ c ∈ l, isPySpace c = true := by
    intro c hc
    rcases (by rw [List.takeWhile_append_dropWhile]; exact hc :
        c ∈ l.takeWhile isPySpace ++ l.dropWhile isPySpace) with hc'
    rcases List.mem_append.mp hc' with h1 | h2
    · exact List.mem_takeWhile_imp h1
    · exact hall2 c h2
  rw [this a ha] at hs
  cases hs

theorem pystrip_apply (s : String) : (pystrip s).data = stripList s.data := rfl

theorem pystrip_ne_empty_iff {s : String} :
    pystrip s ≠ "" ↔ stripList s.data ≠ [] := by
  constructor
  · intro h hnil
    exact h (congrArg String.mk hnil)
  · intro h heq
    exact h (congrArg String.data heq)

theorem pystrip_idem_ne {s : String} (h : pystrip s ≠ "") :
    pystrip (pystrip s) ≠ "" := by
  rw [pystrip_ne_empty_iff] at h ⊢
  rw [pystrip_apply]
  obtain ⟨a, ha, hs⟩ := stripList_nonnil_not_space h
  exact stripList_nonnil_of_mem ha hs

theorem udigit_le_9 {c : Char} {d : Nat} (h : udigit c = some d) : d ≤ 9 := by
  unfold udigit at h
  rw [Option.map_eq_some'] at h
  obtain ⟨b, hb, hd⟩ := h
  have hp := List.find?_some hb
  simp only [Bool.and_eq_true, decide_eq_true_eq] at hp
  omega

theorem yearTok_le_99 : ∀ {l : List Char} {n : Nat} {r : List Char},
    yearTok l = some (n, r) → n ≤ 99 := by
  intro l n r h
  rcases l with _ | ⟨c1, _ | ⟨c2, rest⟩⟩
  · exact Option.noConfusion h
  · exact Option.noConfusion h
  · simp only [yearTok] at h
    rcases h1 : udigit c1 with _ | d1
    · rw [h1] at h
      exact Option.noConfusion h
    · rcases h2 : udigit c2 with _ | d2
      · rw [h1, h2] at h
        exact Option.noConfusion h
      · rw [h1, h2] at h
        injection h with h
        have e1 := udigit_le_9 h1
        have e2 := udigit_le_9 h2
        cases h
        omega

theorem strptime_year_pivot {s : String} {dt : PyDateTime}
    (h : strptime_dmy_hm s = some dt) :
    ∃ yy, yy ≤ 99 ∧ dt.year = pivotY yy := by
  unfold strptime_dmy_hm at h
  rw [Option.bind_eq_some] at h
  obtain ⟨dr, hdr, h⟩ := h
  rw [Option.bind_eq_some] at h
  obtain ⟨r2, hr2, h⟩ := h
  rw [Option.bind_eq_some] at h
  obtain ⟨mr, hmr, h⟩ := h
  rw [Option.bind_eq_some] at h
  obtain ⟨r4, hr4, h⟩ := h
  rw [Option.bind_eq_some] at h
  obtain ⟨yr, hyr, h⟩ := h
  rw [Option.bind_eq_some] at h
  obtain ⟨r6, hr6, h⟩ := h
  rw [Option.bind_eq_some] at h
  obtain ⟨hr, hhr, h⟩ := h
  rw [Option.bind_eq_some] at h
  obtain ⟨r8, hr8, h⟩ := h
  rw [Option.bind_eq_some] at h
  obtain ⟨nr, hnr, h⟩ := h
  refine ⟨yr.1, yearTok_le_99 (by exact hyr), ?_⟩
  split at h
  · split at h
    · cases h; rfl
    · cases h
  · cases h

theorem findAndSelect_false_any_label {field lab : String} :
    ∀ {ws : List Wrapper}, findAndSelect field lab ws = Except.ok false →
      ∀ lab', findAndSelect field lab' ws = Except.ok false := by
  intro ws
  induction ws with
  | nil => intro _ _; rfl
  | cons w rest ih =>
    intro h lab'
    rcases hw : w.sel with _ | se
    · simp only [findAndSelect, hw] at h ⊢
      exact ih h lab'
    · simp only [findAndSelect, hw] at h ⊢
      by_cases hph : placeholderText se = field
      · rw [if_pos hph] at h
        split at h <;> simp at h
      · rw [if_neg hph] at h ⊢
        exact ih h lab'

/-! ## Claim theorems -/

/-- C5: the date normalizer applied to the exact input
"Published on 27.07.25 19:58 CET" returns the combined date-time string
representing 2025-07-27T19:58:00. -/
theorem c5_normalize_valid_example :
    convert_fia_date_to_iso "Published on 27.07.25 19:58 CET" = "2025-07-27T19:58:00" := by
  rfl

/-- C6: the date normalizer never raises (it is a total function) and is
the identity whenever it cannot fully parse the input: any input not
containing the marker "Published on" is returned unchanged, and any input
whose stripped remainder does not parse as "DD.MM.YY HH:MM" is returned
unchanged. -/
theorem c6_normalize_identity_on_failure (s : String) :
    (pycontains s "Published on" = false → convert_fia_date_to_iso s = s) ∧
    (strptime_dmy_hm (fia_date_part s) = none → convert_fia_date_to_iso s = s) := by
  constructor
  · intro h
    unfold convert_fia_date_to_iso
    rw [if_pos (Or.inr h)]
  · intro h
    unfold convert_fia_date_to_iso
    by_cases he : s = "" ∨ pycontains s "Published on" = false
    · rw [if_pos he]
    · rw [if_neg he, h]

theorem c6_normalize_identity_on_failure_witness :
    convert_fia_date_to_iso "hello" = "hello" ∧
    convert_fia_date_to_iso "Published on garbage" = "Published on garbage" :=
  ⟨(c6_normalize_identity_on_failure "hello").1 (by rfl),
   (c6_normalize_identity_on_failure "Published on garbage").2 (by rfl)⟩

/-- C10: every datetime produced by the "%d.%m.%y %H:%M" parser has its
two-digit year pivoted to 2000+YY when YY <= 68 and to 1900+YY when
69 <= YY <= 99; in particular "Published on 27.07.99 19:58 CET"
normalizes into 1999, never 2099. -/
theorem c10_two_digit_year_pivot :
    (∀ s dt, strptime_dmy_hm s = some dt →
        (dt.year % 100 ≤ 68 ∧ dt.year = 2000 + dt.year % 100) ∨
        (69 ≤ dt.year % 100 ∧ dt.year = 1900 + dt.year % 100)) ∧
    convert_fia_date_to_iso "Published on 27.07.99 19:58 CET" = "1999-07-27T19:58:00" := by
  constructor
  · intro s dt h
    obtain ⟨yy, hyy, hy⟩ := strptime_year_pivot h
    unfold pivotY at hy
    by_cases hle : yy ≤ 68
    · rw [if_pos hle] at hy
      left
      omega
    · rw [if_neg hle] at hy
      right
      omega
  · rfl

theorem c10_two_digit_year_pivot_witness :
    ((1999 : Nat) % 100 ≤ 68 ∧ (1999 : Nat) = 2000 + 1999 % 100) ∨
    (69 ≤ (1999 : Nat) % 100 ∧ (1999 : Nat) = 1900 + 1999 % 100) :=
  c10_two_digit_year_pivot.1 "27.07.99 19:58"
    { year := 1999, month := 7, day := 27, hour := 19, minute := 58 } (by rfl)

/-- C1 (code_bug evidence): on a page whose first `.form-type-select`
shows the single-token placeholder text "Season", the season-year read of
`get_docs` raises (the `split(' ')[1]` IndexError) and the whole
extraction aborts, instead of degrading to the "unknown" sentinel as the
claim states. -/
theorem c1_get_docs_aborts_on_season_read :
    get_docs pgPlaceholder = Except.error () := by
  rfl

/-- C2 (code_bug evidence): when a control matching the field name exists
but none of its options carries the requested label, `select_option_by_type`
raises (the Playwright `select_option` TimeoutError propagates) instead of
returning `False` as the claim and the function's own docstring state. -/
theorem c2_select_raises_when_option_unavailable :
    select_option_by_type siteSeasonOnly () "Season" "SEASON 2099" = Except.error () := by
  rfl

/-- C9: whenever the extraction returns a result, its first element is the
metadata record and every remaining element is a document record,
regardless of how many (including zero) document items the page holds. -/
theorem c9_meta_record_first (pg : DocsPage) (out : List Record)
    (h : get_docs pg = Except.ok out) :
    ∃ m rest, out = Record.meta m :: rest ∧ ∀ r ∈ rest, ∃ d, r = Record.doc d := by
  unfold get_docs at h
  split at h
  · cases h
  · cases h
  · split at h
    · cases h
    · injection h with h
      refine ⟨_, _, h.symm, ?_⟩
      intro r hr
      rw [List.mem_filterMap] at hr
      obtain ⟨it, _, hit⟩ := hr
      rw [Option.map_eq_some'] at hit
      obtain ⟨d, _, hd⟩ := hit
      exact ⟨d, hd.symm⟩

theorem c9_meta_record_first_witness :
    get_docs pg0 = Except.ok out0 ∧
    (∃ m rest, out0 = Record.meta m :: rest ∧ ∀ r ∈ rest, ∃ d, r = Record.doc d) :=
  ⟨rfl, c9_meta_record_first pg0 out0 rfl⟩

/-- C8: every document record of an extraction result has a title that is
still non-empty after trimming, and a document item whose title is
missing, empty or whitespace-only produces no record at all. -/
theorem c8_titles_never_blank (pg : DocsPage) (out : List Record)
    (h : get_docs pg = Except.ok out) :
    (∀ d, Record.doc d ∈ out → pystrip d.title ≠ "") ∧
    (∀ it, it ∈ pg.documentItems →
      (it.titleText = none ∨ ∃ t, it.titleText = some t ∧ ∀ c ∈ t.data, isPySpace c = true) →
      docRecordOfItem it = none) := by
  constructor
  · intro d hd
    unfold get_docs at h
    split at h
    · cases h
    · cases h
    · split at h
      · cases h
      · injection h with h
        rw [← h] at hd
        rcases List.mem_cons.mp hd with h1 | h2
        · cases h1
        · rw [List.mem_filterMap] at h2
          obtain ⟨it, _, hit⟩ := h2
          rw [Option.map_eq_some'] at hit
          obtain ⟨d', hd', hdd⟩ := hit
          injection hdd with hdd
          subst hdd
          unfold docRecordOfItem at hd'
          split at hd'
          · rename_i hcond
            injection hd' with hd'
            subst hd'
            show pystrip (itemTitle it) ≠ ""
            rcases htt : it.titleText with _ | t
            · exact absurd (by unfold itemTitle; rw [htt]) hcond
            · have hpt : itemTitle it = pystrip t := by unfold itemTitle; rw [htt]
              rw [hpt] at hcond ⊢
              exact pystrip_idem_ne hcond
          · cases hd'
  · intro it _ hcase
    have hti : itemTitle it = "" := by
      rcases hcase with hnone | ⟨t, hsome, hall⟩
      · unfold itemTitle; rw [hnone]
      · unfold itemTitle
        rw [hsome]
        exact congrArg String.mk (stripList_all_space hall)
    unfold docRecordOfItem
    rw [if_neg (by rw [hti]; simp)]

theorem c8_titles_never_blank_witness :
    get_docs pg0 = Except.ok out0 ∧ pystrip rec1.title ≠ "" :=
  ⟨rfl, (c8_titles_never_blank pg0 out0 rfl).1 rec1 (by decide)⟩

/-- C7: every document record of an extraction result comes from a
document item, and the record's url is the item's href rewritten to an
absolute URL on the site's origin exactly when the href is non-empty and
starts with "/", and is the raw href unchanged otherwise (including the
empty string and a missing href attribute). -/
theorem c7_url_resolution :
    (∀ pg out, get_docs pg = Except.ok out → ∀ d, Record.doc d ∈ out →
      ∃ it, it ∈ pg.documentItems ∧ docRecordOfItem it = some d) ∧
    (∀ it d href, docRecordOfItem it = some d → pyHref it = some href →
      ((href ≠ "" ∧ pyStartsWith href "/" = true) →
        d.url = some ("https://www.fia.com" ++ href)) ∧
      (¬(href ≠ "" ∧ pyStartsWith href "/" = true) → d.url = some href)) ∧
    (∀ it d, docRecordOfItem it = some d → pyHref it = none → d.url = none) := by
  refine ⟨?_, ?_, ?_⟩
  · intro pg out h d hd
    unfold get_docs at h
    split at h
    · cases h
    · cases h
    · split at h
      · cases h
      · injection h with h
        rw [← h] at hd
        rcases List.mem_cons.mp hd with h1 | h2
        · cases h1
        · rw [List.mem_filterMap] at h2
          obtain ⟨it, hin, hit⟩ := h2
          rw [Option.map_eq_some'] at hit
          obtain ⟨d', hd', hdd⟩ := hit
          injection hdd with hdd
          subst hdd
          exact ⟨it, hin, hd'⟩
  · intro it d href h hhref
    unfold docRecordOfItem at h
    split at h
    · injection h with h
      subst h
      constructor
      · intro hcond
        show resolveUrl (pyHref it) = some ("https://www.fia.com" ++ href)
        rw [hhref]
        simp only [resolveUrl]
        rw [if_pos hcond]
      · intro hcond
        show resolveUrl (pyHref it) = some href
        rw [hhref]
        simp only [resolveUrl]
        rw [if_neg hcond]
    · cases h
  · intro it d h hhref
    unfold docRecordOfItem at h
    split at h
    · injection h with h
      subst h
      show resolveUrl (pyHref it) = none
      rw [hhref]
      rfl
    · cases h

theorem c7_url_resolution_witness :
    docRecordOfItem item1 = some rec1 ∧
    rec1.url = some ("https://www.fia.com" ++ "/sites/default/doc1.pdf") :=
  ⟨by rfl,
   (c7_url_resolution.2.1 item1 rec1 "/sites/default/doc1.pdf" (by rfl) (by rfl)).1
     ⟨by decide, by rfl⟩⟩

/-- C3 (counterexample): with the server's current year being 2026, after
season selection for "SEASON 2099" fails the flow retries with
"SEASON 2025" (the year before the current calendar year), not with
"SEASON 2098" (the year before the requested one) as the claim states. -/
theorem c3_fallback_counterexample :
    (get_fia_documents siteNoSeason () 2026 "SEASON 2099" "" "").1 =
      [("Season", "SEASON 2099"), ("Season", "SEASON 2025")] ∧
    ("SEASON 2025" : String) ≠ "SEASON 2098" := by
  constructor
  · rfl
  · decide

/-- C3 (amended): when the requested season selection returns failure, the
single fallback attempted is "SEASON {Y-1}" where Y is the current
calendar year (`datetime.now().year`), regardless of the year appearing in
the requested label; the fallback runs on the unchanged page state, and
the flow then proceeds to extraction on the page's resulting state. -/
theorem c3_season_fallback_amended {σ : Type} (W : Site σ) (s0 : σ) (nowYear : Nat)
    (season : String) (hne : season ≠ "")
    (hfail : findAndSelect "Season" season (W.wrappers s0) = Except.ok false) :
    seasonPhase W s0 nowYear season =
      ([("Season", season), ("Season", "SEASON " ++ toString (nowYear - 1))],
       Except.ok s0) ∧
    ((W.wrappers s0).isEmpty = false →
      get_fia_documents W s0 nowYear season "" "" =
        ([("Season", season), ("Season", "SEASON " ++ toString (nowYear - 1))],
         get_docs (W.docs s0))) := by
  have hfb := findAndSelect_false_any_label hfail ("SEASON " ++ toString (nowYear - 1))
  have hsp : seasonPhase W s0 nowYear season =
      ([("Season", season), ("Season", "SEASON " ++ toString (nowYear - 1))],
       Except.ok s0) := by
    unfold seasonPhase
    rw [if_neg hne]
    unfold select_option_by_type
    simp only [hfail, hfb]
  refine ⟨hsp, ?_⟩
  intro hw
  unfold get_fia_documents
  rw [if_neg (show ¬((W.wrappers s0).isEmpty = true) by rw [hw]; simp), hsp]
  simp [champPhase, eventPhase]

theorem c3_season_fallback_amended_witness :
    seasonPhase siteNoSeason () 2026 "SEASON 2099" =
      ([("Season", "SEASON 2099"), ("Season", "SEASON 2025")], Except.ok ()) ∧
    get_fia_documents siteNoSeason () 2026 "SEASON 2099" "" "" =
      ([("Season", "SEASON 2099"), ("Season", "SEASON 2025")],
       get_docs (siteNoSeason.docs ())) := by
  have h := c3_season_fallback_amended siteNoSeason () 2026 "SEASON 2099"
    (by decide) (by rfl)
  exact ⟨h.1, h.2 (by rfl)⟩

/-- C4: for any page state and season label, once the season has been
applied through the Selector Engine (`select_option_by_type`), the
championship enumeration returns exactly the option labels of the
championship control of the post-selection state, and every returned label
belongs to a non-placeholder option (value different from "0") of that
control. -/
theorem c4_championships_enumeration {σ : Type} (W : Site σ) (s : σ) (sn : String)
    (b : Bool) (s' : σ)
    (hsel : select_option_by_type W s "Season" sn = Except.ok (b, s')) :
    get_available_championships W s (some sn) =
      Except.ok
        (match championshipControl (W.wrappers s') with
         | some se => optionLabelsExcludingPlaceholder se
         | none => []) ∧
    ∀ out, get_available_championships W s (some sn) = Except.ok out →
      ∀ lab ∈ out, ∃ se, championshipControl (W.wrappers s') = some se ∧
        ∃ o ∈ se.options, o.value ≠ "0" ∧ o.label = lab := by
  have h1 : get_available_championships W s (some sn) =
      Except.ok
        (match championshipControl (W.wrappers s') with
         | some se => optionLabelsExcludingPlaceholder se
         | none => []) := by
    simp only [get_available_championships, hsel]
  refine ⟨h1, ?_⟩
  intro out hout lab hlab
  rw [h1] at hout
  injection hout with hout
  subst hout
  rcases hcc : championshipControl (W.wrappers s') with _ | se
  · rw [hcc] at hlab
    exact absurd hlab (List.not_mem_nil lab)
  · rw [hcc] at hlab
    refine ⟨se, rfl, ?_⟩
    unfold optionLabelsExcludingPlaceholder at hlab
    rw [List.mem_map] at hlab
    obtain ⟨o, ho, hol⟩ := hlab
    rw [List.mem_filter] at ho
    refine ⟨o, ho.1, ?_, hol⟩
    simpa using ho.2

theorem c4_championships_enumeration_witness :
    select_option_by_type siteCascade 0 "Season" "SEASON 2025" = Except.ok (true, 1) ∧
    get_available_championships siteCascade 0 (some "SEASON 2025") =
      Except.ok ["FIA Formula One World Championship", "FIA Formula 2 Championship"] :=
  ⟨by rfl,
   (c4_championships_enumeration siteCascade 0 "SEASON 2025" true 1 (by rfl)).1⟩
